import Mathlib

/-!
# Window shell and window-controls bridge of `windows/runner/flutter_window.cpp`

A shallow embedding of `FlutterWindow::OnCreate` (with the method-call handler it
installs on the `media_player/window_controls` channel), `FlutterWindow::OnDestroy`
and `FlutterWindow::MessageHandler`.

Conventions of the embedding:

* pointers and handles are natural numbers or `Option`s; the null handle is `0`,
  the null pointer is `none`;
* every call that leaves the function (Win32 API, base class `Win32Window`,
  Flutter embedder) is recorded, in program order, in a list of `Call`s;
* the values of the `<windows.h>` macros are not part of the source file, so the
  functions take them as a table `WinUser`; `winuser` is the table of the Windows SDK;
* dereferencing a null pointer is an explicit outcome, `Outcome.nullDereference`.
-/

namespace FlutterWindow

/-! ## Machine types -/

/-- Window handle; `0` is the null handle, the only value for which `!hwnd` holds. -/
abbrev HWND := Nat
/-- Message identifier. -/
abbrev UINT := Nat
/-- First message argument. -/
abbrev WPARAM := Nat
/-- Second message argument. -/
abbrev LPARAM := Int
/-- Value returned by a window procedure. -/
abbrev LRESULT := Int

/-- Table of the `<windows.h>` macros the source refers to. -/
structure WinUser where
  WM_NCLBUTTONDOWN : UINT
  HTCAPTION : WPARAM
  SW_MINIMIZE : Int
  SW_RESTORE : Int
  SW_MAXIMIZE : Int
  WM_CLOSE : UINT
  WM_FONTCHANGE : UINT
  deriving DecidableEq, Repr

/-- The values the Windows SDK gives to the macros of `WinUser`. -/
def winuser : WinUser where
  WM_NCLBUTTONDOWN := 0x00A1
  HTCAPTION := 2
  SW_MINIMIZE := 6
  SW_RESTORE := 9
  SW_MAXIMIZE := 3
  WM_CLOSE := 0x0010
  WM_FONTCHANGE := 0x001D

/-- Rectangle returned by `GetClientArea`. -/
structure RECT where
  left : Int
  top : Int
  right : Int
  bottom : Int
  deriving DecidableEq, Repr

/-! ## Calls leaving the translated functions -/

/-- One call made by the translated code to something outside it. The first four
constructors are the native window operations of the method-call handler. -/
inductive Call where
  | ReleaseCapture
  | SendMessage (hwnd : HWND) (msg : UINT) (wparam : WPARAM) (lparam : LPARAM)
  | ShowWindow (hwnd : HWND) (nCmdShow : Int)
  | PostMessage (hwnd : HWND) (msg : UINT) (wparam : WPARAM) (lparam : LPARAM)
  | Win32Window_OnCreate
  | GetClientArea
  | NewFlutterViewController (width height : Int)
  | RegisterPlugins
  | SetChildContent (content : HWND)
  | NewMethodChannel (messenger : Nat) (name : String)
  | SetMethodCallHandler
  | SetNextFrameCallback
  | ForceRedraw
  | ResetController
  | ResetChannel
  | Win32Window_OnDestroy
  | HandleTopLevelWindowProc (hwnd : HWND) (msg : UINT) (wparam : WPARAM) (lparam : LPARAM)
  | ReloadSystemFonts
  | Win32Window_MessageHandler (hwnd : HWND) (msg : UINT) (wparam : WPARAM) (lparam : LPARAM)
  deriving DecidableEq, Repr

/-- The native window operations: `ReleaseCapture`, `SendMessage`, `ShowWindow`
and `PostMessage`. -/
def Call.isNativeWindowOp : Call → Bool
  | .ReleaseCapture => true
  | .SendMessage _ _ _ _ => true
  | .ShowWindow _ _ => true
  | .PostMessage _ _ _ _ => true
  | _ => false

/-! ## The window-controls method-call handler (source lines 38-72) -/

/-- What the handler reports through its `MethodResult` argument. -/
inductive MethodResult where
  | Success
  | Error (code : String) (message : String)
  | NotImplemented
  deriving DecidableEq, Repr

/-- The lambda passed to `SetMethodCallHandler`. `hwnd` is the value `GetHandle()`
returns, `method` is `call.method_name()`, and `IsZoomed` answers the query of the
same name. The result is the list of native calls made, in order, and the reply. -/
def methodCallHandler (K : WinUser) (IsZoomed : HWND → Bool) (hwnd : HWND)
    (method : String) : List Call × MethodResult :=
  if hwnd = 0 then
    ([], .Error "no_window" "Window handle is not available.")
  else if method = "startDrag" then
    ([.ReleaseCapture, .SendMessage hwnd K.WM_NCLBUTTONDOWN K.HTCAPTION 0], .Success)
  else if method = "minimize" then
    ([.ShowWindow hwnd K.SW_MINIMIZE], .Success)
  else if method = "toggleMaximize" then
    ([.ShowWindow hwnd (if IsZoomed hwnd then K.SW_RESTORE else K.SW_MAXIMIZE)], .Success)
  else if method = "close" then
    ([.PostMessage hwnd K.WM_CLOSE 0 0], .Success)
  else
    ([], .NotImplemented)

/-- The four command names the handler compares `method` with. -/
def recognizedCommands : List String :=
  ["startDrag", "minimize", "toggleMaximize", "close"]

/-- A model of the desktop the native calls act on: `perform` is the effect of one
call on the desktop state, `IsZoomed` reads the maximized flag of a window. -/
structure Desktop (σ : Type) where
  perform : σ → Call → σ
  IsZoomed : σ → HWND → Bool

/-- One invocation of the handler against a desktop: the query `IsZoomed` is
answered from the current desktop state and the native calls are then performed
in order. Returns the new desktop state, the calls and the reply. -/
def invoke {σ : Type} (D : Desktop σ) (K : WinUser) (st : σ) (hwnd : HWND)
    (method : String) : σ × List Call × MethodResult :=
  let out := methodCallHandler K (D.IsZoomed st) hwnd method
  (out.1.foldl D.perform st, out.1, out.2)

/-- A concrete desktop: the state is the maximized flag of every window;
`ShowWindow` with `SW_MAXIMIZE` sets the flag, with `SW_RESTORE` or `SW_MINIMIZE`
clears it, every other call leaves it alone. -/
def flagDesktop (K : WinUser) : Desktop (HWND → Bool) where
  perform := fun st c =>
    match c with
    | .ShowWindow h n =>
      if n = K.SW_MAXIMIZE then fun w => if w = h then true else st w
      else if n = K.SW_RESTORE ∨ n = K.SW_MINIMIZE then fun w => if w = h then false else st w
      else st
    | _ => st
  IsZoomed := fun st h => st h

/-! ## The window shell -/

/-- The engine object `flutter_controller_->engine()` points to; `messenger` stands
for the value of `engine()->messenger()`. -/
structure FlutterEngine where
  messenger : Nat
  deriving DecidableEq, Repr

/-- The view object `flutter_controller_->view()` points to; `nativeWindow` is the
value of `view()->GetNativeWindow()`. -/
structure FlutterView where
  nativeWindow : HWND
  deriving DecidableEq, Repr

/-- The engine controller, a collaborator outside the source file. `engine` and
`view` are the pointers returned by `engine()` and `view()` (`none` is null), and
`HandleTopLevelWindowProc` is the answer of the top-level pre-handler, `none`
when the engine leaves the message unhandled. -/
structure FlutterViewController where
  engine : Option FlutterEngine
  view : Option FlutterView
  HandleTopLevelWindowProc : HWND → UINT → WPARAM → LPARAM → Option LRESULT

/-- The channel object held by `window_controls_channel_`: the messenger and name it
was constructed with, and whether `SetMethodCallHandler` has been called on it. -/
structure MethodChannel where
  messenger : Nat
  name : String
  hasHandler : Bool
  deriving DecidableEq, Repr

/-- The two owning pointers of the shell (`std::unique_ptr` members of
`FlutterWindow`); `none` is the null pointer. -/
structure Shell where
  flutter_controller_ : Option FlutterViewController
  window_controls_channel_ : Option MethodChannel

/-- The shell right after the constructor `FlutterWindow(project)`: both pointers
are null. -/
def Shell.uninitialized : Shell :=
  { flutter_controller_ := none, window_controls_channel_ := none }

/-- The shell is bound: the controller is present and has both an engine and a view. -/
def Shell.Bound (s : Shell) : Prop :=
  ∃ c e v, s.flutter_controller_ = some c ∧ c.engine = some e ∧ c.view = some v

/-- What the collaborators outside the source file answer during one call:
the base class `Win32Window` (`OnCreate`, `GetClientArea`, `MessageHandler`) and
the constructor of `FlutterViewController`, applied to width and height. -/
structure Host where
  Win32Window_OnCreate : Bool
  GetClientArea : RECT
  makeController : Int → Int → FlutterViewController
  Win32Window_MessageHandler : HWND → UINT → WPARAM → LPARAM → LRESULT

/-- Result of `OnCreate`: the shell afterwards, the calls made and the returned
boolean. -/
structure Created where
  shell : Shell
  calls : List Call
  ret : Bool

/-- The name the channel is constructed with. -/
def channelName : String := "media_player/window_controls"

/-- Translation of `FlutterWindow::OnCreate` (source lines 13-84). The channel is
constructed without a handler and `SetMethodCallHandler` then sets `hasHandler`;
the handler installed is `methodCallHandler`. -/
def OnCreate (H : Host) (s : Shell) : Created :=
  if !H.Win32Window_OnCreate then
    { shell := s, calls := [.Win32Window_OnCreate], ret := false }
  else
    let frame := H.GetClientArea
    let width := frame.right - frame.left
    let height := frame.bottom - frame.top
    let c := H.makeController width height
    let s1 : Shell := { s with flutter_controller_ := some c }
    let t1 : List Call :=
      [.Win32Window_OnCreate, .GetClientArea, .NewFlutterViewController width height]
    match c.engine, c.view with
    | some e, some v =>
      let channel : MethodChannel :=
        { messenger := e.messenger, name := channelName, hasHandler := false }
      let s2 : Shell :=
        { s1 with window_controls_channel_ := some { channel with hasHandler := true } }
      { shell := s2,
        calls := t1 ++ [.RegisterPlugins, .SetChildContent v.nativeWindow,
          .NewMethodChannel e.messenger channelName, .SetMethodCallHandler,
          .SetNextFrameCallback, .ForceRedraw],
        ret := true }
    | _, _ => { shell := s1, calls := t1, ret := false }

/-- Translation of `FlutterWindow::OnDestroy` (source lines 86-93): the shell
afterwards and the calls made. `ResetController` is the assignment
`flutter_controller_ = nullptr`, made only when the pointer is non-null;
`ResetChannel` is the assignment `window_controls_channel_ = nullptr`. -/
def OnDestroy (s : Shell) : Shell × List Call :=
  let p1 : Shell × List Call :=
    if s.flutter_controller_.isSome then
      ({ s with flutter_controller_ := none }, [.ResetController])
    else (s, [])
  let s2 : Shell := { p1.1 with window_controls_channel_ := none }
  (s2, p1.2 ++ [.ResetChannel, .Win32Window_OnDestroy])

/-- How a call of `MessageHandler` ends: with a returned value, or by
dereferencing a null pointer. -/
inductive Outcome where
  | returned (r : LRESULT)
  | nullDereference
  deriving DecidableEq, Repr

/-- Translation of `FlutterWindow::MessageHandler` (source lines 95-116): the calls
made, in order, and how the call ends. The shell's two pointers are not assigned. -/
def MessageHandler (K : WinUser) (H : Host) (s : Shell) (hwnd : HWND) (message : UINT)
    (wparam : WPARAM) (lparam : LPARAM) : List Call × Outcome :=
  let pre : List Call × Option LRESULT :=
    match s.flutter_controller_ with
    | some c =>
      ([.HandleTopLevelWindowProc hwnd message wparam lparam],
        c.HandleTopLevelWindowProc hwnd message wparam lparam)
    | none => ([], none)
  match pre.2 with
  | some r => (pre.1, .returned r)
  | none =>
    if message = K.WM_FONTCHANGE then
      match s.flutter_controller_ with
      | none => (pre.1, .nullDereference)
      | some c =>
        match c.engine with
        | none => (pre.1, .nullDereference)
        | some _ =>
          (pre.1 ++ [.ReloadSystemFonts,
              .Win32Window_MessageHandler hwnd message wparam lparam],
            .returned (H.Win32Window_MessageHandler hwnd message wparam lparam))
    else
      (pre.1 ++ [.Win32Window_MessageHandler hwnd message wparam lparam],
        .returned (H.Win32Window_MessageHandler hwnd message wparam lparam))

/-- Whether a call constructs the channel or registers its method-call handler. -/
def Call.installsChannel : Call → Bool
  | .NewMethodChannel _ _ => true
  | .SetMethodCallHandler => true
  | _ => false

/-- The controller `OnCreate` constructs under host `H`: the constructor applied to
the width and height of the client area. -/
def Host.controller (H : Host) : FlutterViewController :=
  H.makeController (H.GetClientArea.right - H.GetClientArea.left)
    (H.GetClientArea.bottom - H.GetClientArea.top)

/-! ## Concrete collaborators, used to evaluate the functions -/

/-- A controller with engine and view whose pre-handler leaves every message
unhandled. -/
def quietController : FlutterViewController where
  engine := some { messenger := 7 }
  view := some { nativeWindow := 42 }
  HandleTopLevelWindowProc := fun _ _ _ _ => none

/-- A controller with engine and view whose pre-handler handles every message
with result `5`. -/
def greedyController : FlutterViewController where
  engine := some { messenger := 7 }
  view := some { nativeWindow := 42 }
  HandleTopLevelWindowProc := fun _ _ _ _ => some 5

/-- A controller whose construction produced a view but no engine. -/
def engineLessController : FlutterViewController where
  engine := none
  view := some { nativeWindow := 42 }
  HandleTopLevelWindowProc := fun _ _ _ _ => none

/-- A host with an 800x600 client area whose base creation succeeds and whose
controller construction yields `c`; default handling returns `0`. -/
def hostWith (c : FlutterViewController) : Host where
  Win32Window_OnCreate := true
  GetClientArea := { left := 0, top := 0, right := 800, bottom := 600 }
  makeController := fun _ _ => c
  Win32Window_MessageHandler := fun _ _ _ _ => 0

/-- A host whose base window creation fails. -/
def failingBaseHost : Host :=
  { hostWith quietController with Win32Window_OnCreate := false }

/-! ## Theorems: the window-controls bridge -/

/-- C1: with a valid (non-null) window handle each of the four recognized commands
replies `Success` and makes exactly its own native calls on that handle:
`startDrag` releases the mouse capture and then sends `WM_NCLBUTTONDOWN` with
`HTCAPTION`, `minimize` shows with `SW_MINIMIZE`, `toggleMaximize` shows with
`SW_RESTORE` when the window is maximized and with `SW_MAXIMIZE` otherwise, and
`close` posts `WM_CLOSE`. -/
theorem recognized_command_success (K : WinUser) (IsZoomed : HWND → Bool) (hwnd : HWND)
    (hvalid : hwnd ≠ 0) :
    methodCallHandler K IsZoomed hwnd "startDrag"
        = ([.ReleaseCapture, .SendMessage hwnd K.WM_NCLBUTTONDOWN K.HTCAPTION 0], .Success)
      ∧ methodCallHandler K IsZoomed hwnd "minimize"
        = ([.ShowWindow hwnd K.SW_MINIMIZE], .Success)
      ∧ (IsZoomed hwnd = true → methodCallHandler K IsZoomed hwnd "toggleMaximize"
        = ([.ShowWindow hwnd K.SW_RESTORE], .Success))
      ∧ (IsZoomed hwnd = false → methodCallHandler K IsZoomed hwnd "toggleMaximize"
        = ([.ShowWindow hwnd K.SW_MAXIMIZE], .Success))
      ∧ methodCallHandler K IsZoomed hwnd "close"
        = ([.PostMessage hwnd K.WM_CLOSE 0 0], .Success) := by
  refine ⟨?_, ?_, ?_, ?_, ?_⟩
  · simp [methodCallHandler, hvalid]
  · simp [methodCallHandler, hvalid]
  · intro hz
    simp [methodCallHandler, hvalid, hz]
  · intro hz
    simp [methodCallHandler, hvalid, hz]
  · simp [methodCallHandler, hvalid]

/-- Witness of C1 at handle `1` of a non-maximized window, with the SDK constants. -/
theorem recognized_command_success_witness :
    (1 : HWND) ≠ 0
      ∧ methodCallHandler winuser (fun _ => false) 1 "startDrag"
        = ([.ReleaseCapture, .SendMessage 1 0x00A1 2 0], .Success)
      ∧ methodCallHandler winuser (fun _ => false) 1 "minimize"
        = ([.ShowWindow 1 6], .Success)
      ∧ methodCallHandler winuser (fun _ => false) 1 "toggleMaximize"
        = ([.ShowWindow 1 3], .Success)
      ∧ methodCallHandler winuser (fun _ => false) 1 "close"
        = ([.PostMessage 1 0x0010 0 0], .Success) :=
  have h := recognized_command_success winuser (fun _ => false) 1 (by decide)
  ⟨by decide, h.1, h.2.1, h.2.2.2.1 rfl, h.2.2.2.2⟩

/-- C2, as stated, fails: the name `fullscreen` is outside the recognized set, yet
with an absent window handle the handler replies `Error` with code `no_window`,
not `NotImplemented`. -/
theorem unrecognized_command_absent_handle :
    "fullscreen" ∉ recognizedCommands
      ∧ (methodCallHandler winuser (fun _ => false) 0 "fullscreen").2
        = .Error "no_window" "Window handle is not available."
      ∧ (methodCallHandler winuser (fun _ => false) 0 "fullscreen").2
        ≠ .NotImplemented := by
  refine ⟨by decide, ?_, ?_⟩ <;> simp [methodCallHandler]

/-- C2, amended: for every command name outside the recognized set the handler makes
no native call, whatever the window handle, and with a valid (non-null) handle it
replies `NotImplemented`. -/
theorem unrecognized_command_not_implemented (K : WinUser) (IsZoomed : HWND → Bool)
    (hwnd : HWND) (method : String) (hm : method ∉ recognizedCommands) :
    (methodCallHandler K IsZoomed hwnd method).1 = []
      ∧ (hwnd ≠ 0 → methodCallHandler K IsZoomed hwnd method = ([], .NotImplemented)) := by
  simp only [recognizedCommands, List.mem_cons, List.mem_singleton, List.not_mem_nil,
    or_false, not_or] at hm
  obtain ⟨h1, h2, h3, h4⟩ := hm
  constructor
  · by_cases h0 : hwnd = 0 <;> simp [methodCallHandler, h0, h1, h2, h3, h4]
  · intro h0
    simp [methodCallHandler, h0, h1, h2, h3, h4]

/-- Witness of amended C2 for the name `fullscreen` and handle `1`. -/
theorem unrecognized_command_not_implemented_witness :
    "fullscreen" ∉ recognizedCommands
      ∧ methodCallHandler winuser (fun _ => false) 1 "fullscreen" = ([], .NotImplemented) :=
  ⟨by decide,
    (unrecognized_command_not_implemented winuser (fun _ => false) 1 "fullscreen"
      (by decide)).2 (by decide)⟩

/-- C3: for every recognized command name, when the window handle is absent (null)
the handler replies `Error` with code `no_window` and makes no call at all, so no
`ReleaseCapture`, `SendMessage`, `ShowWindow` or `PostMessage`. -/
theorem absent_handle_no_window (K : WinUser) (IsZoomed : HWND → Bool) (method : String)
    (_hm : method ∈ recognizedCommands) :
    methodCallHandler K IsZoomed 0 method
      = ([], .Error "no_window" "Window handle is not available.") := by
  simp [methodCallHandler]

/-- Witness of C3 for the command `close`. -/
theorem absent_handle_no_window_witness :
    "close" ∈ recognizedCommands
      ∧ methodCallHandler winuser (fun _ => true) 0 "close"
        = ([], .Error "no_window" "Window handle is not available.") :=
  ⟨by decide, absent_handle_no_window winuser (fun _ => true) "close" (by decide)⟩

/-- C4: over any desktop model in which showing with `SW_MAXIMIZE` makes a window
maximized and showing with `SW_RESTORE` makes it non-maximized, for a valid handle
whose window starts non-maximized, the first `toggleMaximize` issues `SW_MAXIMIZE`
and leaves the window maximized, and the second issues `SW_RESTORE` and leaves it
non-maximized; both reply `Success`. -/
theorem toggleMaximize_twice {σ : Type} (D : Desktop σ) (K : WinUser) (st : σ)
    (hwnd : HWND) (hvalid : hwnd ≠ 0)
    (hmax : ∀ s h, D.IsZoomed (D.perform s (.ShowWindow h K.SW_MAXIMIZE)) h = true)
    (hres : ∀ s h, D.IsZoomed (D.perform s (.ShowWindow h K.SW_RESTORE)) h = false)
    (hstart : D.IsZoomed st hwnd = false) :
    (invoke D K st hwnd "toggleMaximize").2 = ([.ShowWindow hwnd K.SW_MAXIMIZE], .Success)
      ∧ D.IsZoomed (invoke D K st hwnd "toggleMaximize").1 hwnd = true
      ∧ (invoke D K (invoke D K st hwnd "toggleMaximize").1 hwnd "toggleMaximize").2
        = ([.ShowWindow hwnd K.SW_RESTORE], .Success)
      ∧ D.IsZoomed
          (invoke D K (invoke D K st hwnd "toggleMaximize").1 hwnd "toggleMaximize").1 hwnd
        = false := by
  have e1 : invoke D K st hwnd "toggleMaximize"
      = (D.perform st (.ShowWindow hwnd K.SW_MAXIMIZE),
          [.ShowWindow hwnd K.SW_MAXIMIZE], .Success) := by
    simp [invoke, methodCallHandler, hvalid, hstart]
  have e2 : invoke D K (D.perform st (.ShowWindow hwnd K.SW_MAXIMIZE)) hwnd "toggleMaximize"
      = (D.perform (D.perform st (.ShowWindow hwnd K.SW_MAXIMIZE))
            (.ShowWindow hwnd K.SW_RESTORE),
          [.ShowWindow hwnd K.SW_RESTORE], .Success) := by
    simp [invoke, methodCallHandler, hvalid, hmax]
  rw [e1]
  dsimp only
  rw [e2]
  exact ⟨rfl, hmax _ _, rfl, hres _ _⟩

/-- Witness of C4 on the flag desktop with the SDK constants, at handle `1`, starting
with no window maximized. -/
theorem toggleMaximize_twice_witness :
    (invoke (flagDesktop winuser) winuser (fun _ => false) 1 "toggleMaximize").2
        = ([.ShowWindow 1 3], .Success)
      ∧ (flagDesktop winuser).IsZoomed
          (invoke (flagDesktop winuser) winuser (fun _ => false) 1 "toggleMaximize").1 1 = true
      ∧ (invoke (flagDesktop winuser) winuser
          (invoke (flagDesktop winuser) winuser (fun _ => false) 1 "toggleMaximize").1
          1 "toggleMaximize").2 = ([.ShowWindow 1 9], .Success)
      ∧ (flagDesktop winuser).IsZoomed
          (invoke (flagDesktop winuser) winuser
            (invoke (flagDesktop winuser) winuser (fun _ => false) 1 "toggleMaximize").1
            1 "toggleMaximize").1 1 = false :=
  toggleMaximize_twice (flagDesktop winuser) winuser (fun _ => false) 1 (by decide)
    (by intro s h; simp [flagDesktop])
    (by intro s h; simp [flagDesktop, winuser])
    rfl

/-! ## Theorems: message handling -/

/-- C5: while the shell is bound, `MessageHandler` first offers the message to the
controller's top-level pre-handler; if that returns a result, `MessageHandler`
returns exactly it and makes no other call (no font reload, no default handling);
if it returns none, `MessageHandler` returns what the base `MessageHandler` returns
on the same four arguments, the base call being the last call made. -/
theorem messageHandler_bound (K : WinUser) (H : Host) (s : Shell) (hwnd : HWND)
    (message : UINT) (wparam : WPARAM) (lparam : LPARAM) (hb : s.Bound) :
    ∃ c, s.flutter_controller_ = some c
      ∧ (MessageHandler K H s hwnd message wparam lparam).1.head?
        = some (.HandleTopLevelWindowProc hwnd message wparam lparam)
      ∧ (∀ r, c.HandleTopLevelWindowProc hwnd message wparam lparam = some r →
          MessageHandler K H s hwnd message wparam lparam
            = ([.HandleTopLevelWindowProc hwnd message wparam lparam], .returned r))
      ∧ (c.HandleTopLevelWindowProc hwnd message wparam lparam = none →
          (MessageHandler K H s hwnd message wparam lparam).2
              = .returned (H.Win32Window_MessageHandler hwnd message wparam lparam)
            ∧ (MessageHandler K H s hwnd message wparam lparam).1
              = [.HandleTopLevelWindowProc hwnd message wparam lparam]
                ++ (if message = K.WM_FONTCHANGE then [.ReloadSystemFonts] else [])
                ++ [.Win32Window_MessageHandler hwnd message wparam lparam]) := by
  obtain ⟨c, e, v, hc, he, _⟩ := hb
  refine ⟨c, hc, ?_, ?_, ?_⟩
  · cases hp : c.HandleTopLevelWindowProc hwnd message wparam lparam with
    | some r => simp [MessageHandler, hc, hp]
    | none =>
      by_cases hf : message = K.WM_FONTCHANGE
      · subst hf
        simp [MessageHandler, hc, hp, he]
      · simp [MessageHandler, hc, hp, hf]
  · intro r hp
    simp [MessageHandler, hc, hp]
  · intro hp
    by_cases hf : message = K.WM_FONTCHANGE
    · subst hf
      simp [MessageHandler, hc, hp, he]
    · simp [MessageHandler, hc, hp, hf]

/-- Witness of C5: the shell bound by `OnCreate` to a controller that handles every
message returns the controller's result `5` for `WM_CLOSE` and makes no other call. -/
theorem messageHandler_bound_witness :
    (OnCreate (hostWith greedyController) Shell.uninitialized).shell.Bound
      ∧ MessageHandler winuser (hostWith greedyController)
          (OnCreate (hostWith greedyController) Shell.uninitialized).shell 1 0x0010 0 0
        = ([.HandleTopLevelWindowProc 1 0x0010 0 0], .returned 5) := by
  have hb : (OnCreate (hostWith greedyController) Shell.uninitialized).shell.Bound :=
    ⟨greedyController, _, _, rfl, rfl, rfl⟩
  obtain ⟨c, hc, _, hr, _⟩ := messageHandler_bound winuser (hostWith greedyController)
    (OnCreate (hostWith greedyController) Shell.uninitialized).shell 1 0x0010 0 0 hb
  have hcc : c = greedyController := by
    have h2 : (OnCreate (hostWith greedyController) Shell.uninitialized).shell.flutter_controller_
        = some greedyController := rfl
    rw [h2] at hc
    exact (Option.some.inj hc).symm
  subst hcc
  exact ⟨hb, hr 5 rfl⟩

/-- C6, as stated, fails: a `WM_FONTCHANGE` delivered to a bound shell whose
pre-handler handles the message causes no font reload and no default handling. -/
theorem fontchange_handled_by_engine :
    (OnCreate (hostWith greedyController) Shell.uninitialized).shell.Bound
      ∧ MessageHandler winuser (hostWith greedyController)
          (OnCreate (hostWith greedyController) Shell.uninitialized).shell
          1 winuser.WM_FONTCHANGE 0 0
        = ([.HandleTopLevelWindowProc 1 0x001D 0 0], .returned 5)
      ∧ (MessageHandler winuser (hostWith greedyController)
          (OnCreate (hostWith greedyController) Shell.uninitialized).shell
          1 winuser.WM_FONTCHANGE 0 0).1.count .ReloadSystemFonts = 0 := by
  refine ⟨⟨greedyController, _, _, rfl, rfl, rfl⟩, ?_, ?_⟩ <;>
    simp [MessageHandler, OnCreate, hostWith, greedyController, winuser, Shell.uninitialized]

/-- C6, amended: for every `WM_FONTCHANGE` delivered to a bound shell whose
pre-handler leaves the message unhandled, the calls are the pre-handler, then
exactly one `ReloadSystemFonts`, then the base `MessageHandler`, whose result is
returned. -/
theorem fontchange_unhandled (K : WinUser) (H : Host) (s : Shell) (c : FlutterViewController)
    (hwnd : HWND) (wparam : WPARAM) (lparam : LPARAM) (hb : s.Bound)
    (hc : s.flutter_controller_ = some c)
    (hp : c.HandleTopLevelWindowProc hwnd K.WM_FONTCHANGE wparam lparam = none) :
    MessageHandler K H s hwnd K.WM_FONTCHANGE wparam lparam
        = ([.HandleTopLevelWindowProc hwnd K.WM_FONTCHANGE wparam lparam, .ReloadSystemFonts,
            .Win32Window_MessageHandler hwnd K.WM_FONTCHANGE wparam lparam],
          .returned (H.Win32Window_MessageHandler hwnd K.WM_FONTCHANGE wparam lparam))
      ∧ (MessageHandler K H s hwnd K.WM_FONTCHANGE wparam lparam).1.count .ReloadSystemFonts
        = 1 := by
  obtain ⟨c', e, v, hc', he, _⟩ := hb
  have hcc : c' = c := Option.some.inj (hc'.symm.trans hc)
  subst hcc
  have h : MessageHandler K H s hwnd K.WM_FONTCHANGE wparam lparam
      = ([.HandleTopLevelWindowProc hwnd K.WM_FONTCHANGE wparam lparam, .ReloadSystemFonts,
            .Win32Window_MessageHandler hwnd K.WM_FONTCHANGE wparam lparam],
          .returned (H.Win32Window_MessageHandler hwnd K.WM_FONTCHANGE wparam lparam)) := by
    simp [MessageHandler, hc, hp, he]
  rw [h]
  exact ⟨rfl, by simp [List.count_cons]⟩

/-- Witness of amended C6: the shell bound by `OnCreate` to a controller that leaves
every message unhandled. -/
theorem fontchange_unhandled_witness :
    (OnCreate (hostWith quietController) Shell.uninitialized).shell.Bound
      ∧ MessageHandler winuser (hostWith quietController)
          (OnCreate (hostWith quietController) Shell.uninitialized).shell
          1 winuser.WM_FONTCHANGE 0 0
        = ([.HandleTopLevelWindowProc 1 winuser.WM_FONTCHANGE 0 0, .ReloadSystemFonts,
            .Win32Window_MessageHandler 1 winuser.WM_FONTCHANGE 0 0], .returned 0) :=
  ⟨⟨quietController, _, _, rfl, rfl, rfl⟩,
    (fontchange_unhandled winuser (hostWith quietController)
      (OnCreate (hostWith quietController) Shell.uninitialized).shell quietController
      1 0 0 ⟨quietController, _, _, rfl, rfl, rfl⟩ rfl rfl).1⟩

/-- C9, the defect: `WM_FONTCHANGE` arriving while the controller pointer is null,
on the freshly constructed shell and on a bound shell after `OnDestroy`, makes
`MessageHandler` dereference the null pointer before any default handling. -/
theorem fontchange_without_controller :
    MessageHandler winuser (hostWith quietController) Shell.uninitialized
        1 winuser.WM_FONTCHANGE 0 0 = ([], .nullDereference)
      ∧ MessageHandler winuser (hostWith quietController)
          (OnDestroy (OnCreate (hostWith quietController) Shell.uninitialized).shell).1
          1 winuser.WM_FONTCHANGE 0 0 = ([], .nullDereference) := by
  constructor <;>
    simp [MessageHandler, OnDestroy, OnCreate, hostWith, quietController, winuser,
      Shell.uninitialized]

/-- Away from the defect of C9: a message other than `WM_FONTCHANGE` arriving while
the controller pointer is null makes no call on the controller and returns the
result of the base `MessageHandler`. -/
theorem other_message_without_controller (K : WinUser) (H : Host) (s : Shell) (hwnd : HWND)
    (message : UINT) (wparam : WPARAM) (lparam : LPARAM)
    (hs : s.flutter_controller_ = none) (hm : message ≠ K.WM_FONTCHANGE) :
    MessageHandler K H s hwnd message wparam lparam
      = ([.Win32Window_MessageHandler hwnd message wparam lparam],
        .returned (H.Win32Window_MessageHandler hwnd message wparam lparam)) := by
  simp [MessageHandler, hs, hm]

/-! ## Theorems: creation and destruction -/

/-- C7: `OnCreate` returns false when base window creation fails, and when the
constructed controller lacks an engine or a view; in both cases the channel field
is left as it was (absent if it was absent) and no call constructs a channel or
registers a handler. When base creation succeeds and engine and view are both
present, `OnCreate` returns true and the channel field holds a channel named
`media_player/window_controls` with its handler registered. -/
theorem onCreate_outcome (H : Host) (s : Shell) :
    (H.Win32Window_OnCreate = false ∨ H.controller.engine = none ∨ H.controller.view = none →
        (OnCreate H s).ret = false
          ∧ (OnCreate H s).shell.window_controls_channel_ = s.window_controls_channel_
          ∧ ∀ c ∈ (OnCreate H s).calls, c.installsChannel = false)
      ∧ (∀ e v, H.Win32Window_OnCreate = true → H.controller.engine = some e →
          H.controller.view = some v →
        (OnCreate H s).ret = true
          ∧ (OnCreate H s).shell.window_controls_channel_
            = some { messenger := e.messenger, name := "media_player/window_controls",
                     hasHandler := true }
          ∧ Call.SetMethodCallHandler ∈ (OnCreate H s).calls) := by
  unfold Host.controller
  constructor
  · intro h
    by_cases hb : H.Win32Window_OnCreate = true
    · have hb' : H.Win32Window_OnCreate ≠ false := by simp [hb]
      rcases h with h | h | h
      · exact absurd h hb'
      · simp [OnCreate, hb, h, Call.installsChannel]
      · cases he : (H.makeController (H.GetClientArea.right - H.GetClientArea.left)
            (H.GetClientArea.bottom - H.GetClientArea.top)).engine <;>
          simp [OnCreate, hb, h, he, Call.installsChannel]
    · have hb' : H.Win32Window_OnCreate = false := by simpa using hb
      simp [OnCreate, hb', Call.installsChannel]
  · intro e v hb he hv
    simp [OnCreate, hb, he, hv, channelName]

/-- Witness of C7: from the uninitialized shell, a failing base creation and a
controller without engine both return false with the channel still absent, and a
controller with engine and view returns true with the channel installed. -/
theorem onCreate_outcome_witness :
    ((OnCreate failingBaseHost Shell.uninitialized).ret = false
        ∧ (OnCreate failingBaseHost Shell.uninitialized).shell.window_controls_channel_ = none)
      ∧ ((OnCreate (hostWith engineLessController) Shell.uninitialized).ret = false
        ∧ (OnCreate (hostWith engineLessController)
            Shell.uninitialized).shell.window_controls_channel_ = none)
      ∧ ((OnCreate (hostWith quietController) Shell.uninitialized).ret = true
        ∧ (OnCreate (hostWith quietController) Shell.uninitialized).shell.window_controls_channel_
          = some { messenger := 7, name := "media_player/window_controls",
                   hasHandler := true }) :=
  have h1 := (onCreate_outcome failingBaseHost Shell.uninitialized).1 (Or.inl rfl)
  have h2 := (onCreate_outcome (hostWith engineLessController) Shell.uninitialized).1
    (Or.inr (Or.inl rfl))
  have h3 := (onCreate_outcome (hostWith quietController) Shell.uninitialized).2
    { messenger := 7 } { nativeWindow := 42 } rfl rfl rfl
  ⟨⟨h1.1, h1.2.1⟩, ⟨h2.1, h2.2.1⟩, ⟨h3.1, h3.2.1⟩⟩

/-- C8, as stated, fails: when the constructed controller has no engine, `OnCreate`
returns false from the uninitialized shell and the controller field still holds
the controller it constructed. -/
theorem failed_onCreate_keeps_controller :
    (OnCreate (hostWith engineLessController) Shell.uninitialized).ret = false
      ∧ (OnCreate (hostWith engineLessController)
          Shell.uninitialized).shell.flutter_controller_.isSome = true
      ∧ (OnCreate (hostWith engineLessController)
          Shell.uninitialized).shell.flutter_controller_ ≠ none := by
  refine ⟨rfl, rfl, ?_⟩
  intro h
  have h2 : (OnCreate (hostWith engineLessController)
      Shell.uninitialized).shell.flutter_controller_.isSome = true := rfl
  rw [h] at h2
  exact Bool.noConfusion h2

/-- C8, amended: whenever `OnCreate` returns false from the uninitialized shell, the
channel field is absent; the controller field is absent when base window creation
failed, and holds the constructed controller when base creation succeeded. -/
theorem failed_onCreate_state (H : Host) (hf : (OnCreate H Shell.uninitialized).ret = false) :
    (OnCreate H Shell.uninitialized).shell.window_controls_channel_ = none
      ∧ (H.Win32Window_OnCreate = false →
          (OnCreate H Shell.uninitialized).shell.flutter_controller_ = none)
      ∧ (H.Win32Window_OnCreate = true →
          (OnCreate H Shell.uninitialized).shell.flutter_controller_ = some H.controller
            ∧ (H.controller.engine = none ∨ H.controller.view = none)) := by
  unfold Host.controller
  by_cases hb : H.Win32Window_OnCreate = true
  · cases he : (H.makeController (H.GetClientArea.right - H.GetClientArea.left)
        (H.GetClientArea.bottom - H.GetClientArea.top)).engine with
    | none => simp [OnCreate, hb, he, Shell.uninitialized]
    | some e =>
      cases hv : (H.makeController (H.GetClientArea.right - H.GetClientArea.left)
          (H.GetClientArea.bottom - H.GetClientArea.top)).view with
      | none => simp [OnCreate, hb, he, hv, Shell.uninitialized]
      | some v => simp [OnCreate, hb, he, hv] at hf
  · have hb' : H.Win32Window_OnCreate = false := by simpa using hb
    simp [OnCreate, hb', Shell.uninitialized]

/-- Witness of amended C8 at a host whose base window creation fails. -/
theorem failed_onCreate_state_witness :
    (OnCreate failingBaseHost Shell.uninitialized).ret = false
      ∧ (OnCreate failingBaseHost Shell.uninitialized).shell.window_controls_channel_ = none
      ∧ (OnCreate failingBaseHost Shell.uninitialized).shell.flutter_controller_ = none :=
  have h := failed_onCreate_state failingBaseHost rfl
  ⟨rfl, h.1, h.2.1 rfl⟩

/-- C10: for every shell, `OnDestroy` resets the controller pointer first (when it is
non-null), then clears the channel pointer, then calls the base `OnDestroy`;
afterwards both pointers are null; on the shell that never got a controller the
call is defined and makes the last two calls only. -/
theorem onDestroy_order (s : Shell) :
    (OnDestroy s).2
        = (if s.flutter_controller_.isSome then [Call.ResetController] else [])
          ++ [.ResetChannel, .Win32Window_OnDestroy]
      ∧ (OnDestroy s).1.flutter_controller_ = none
      ∧ (OnDestroy s).1.window_controls_channel_ = none
      ∧ (OnDestroy Shell.uninitialized).2 = [.ResetChannel, .Win32Window_OnDestroy] := by
  refine ⟨?_, ?_, ?_, ?_⟩
  · cases hc : s.flutter_controller_ <;> simp [OnDestroy, hc]
  · cases hc : s.flutter_controller_ <;> simp [OnDestroy, hc]
  · simp [OnDestroy]
  · simp [OnDestroy, Shell.uninitialized]

end FlutterWindow
